import Mathlib

/-!
Shallow embedding of the course-creation repository's session manager,
artifact store, progress reading and stage functions
(src/services/conversation_manager.py, src/services/api.py,
src/utils/results_saver.py, src/ui/app.py, src/nodes/question_collector.py,
src/agents/researcher_agent.py, src/agents/xdp_agent.py), together with
proofs of the behavioural properties stated about them.

Wall-clock fields (`created_at`, `updated_at`, message timestamps) are
irrelevant to every property below and are omitted from the session model;
where a timestamp is part of a persisted record shape
(`ResultsSaver.save_step_result`) it is threaded as an explicit argument
standing for `datetime.now().isoformat()`.
-/

namespace CourseCreation

/-- A Python/JSON-like runtime value, as threaded through the workflow state
and persisted by the results saver.  `obj` models a `dict` as an ordered
association list (Python dicts preserve insertion order and never hold
duplicate keys); `tup` models a Python tuple (LangGraph stream items are
sometimes tuples). -/
inductive PyVal where
  | null
  | bool (b : Bool)
  | num (n : Int)
  | str (s : String)
  | arr (xs : List PyVal)
  | tup (xs : List PyVal)
  | obj (fields : List (String × PyVal))

/-- Lookup of a key in an ordered association list (Python `dict.get`). -/
def lookupField : List (String × PyVal) → String → Option PyVal
  | [], _ => none
  | (k, v) :: rest, key => if k = key then some v else lookupField rest key

/-- `dict.get(key)` on a PyVal: `none` when the value is not a dict or the
key is absent (Python would raise on a non-dict; such calls are unreachable
at the sites embedded below, which guard with `isinstance` checks). -/
def PyVal.getKey? : PyVal → String → Option PyVal
  | .obj fields, key => lookupField fields key
  | _, _ => none

/-- Python truthiness of a value. -/
def pyTruthy : PyVal → Bool
  | .null => false
  | .bool b => b
  | .num n => n != 0
  | .str s => !s.isEmpty
  | .arr xs => !xs.isEmpty
  | .tup xs => !xs.isEmpty
  | .obj fields => !fields.isEmpty

/-- Python truthiness of an `Optional[...]` value (`None` is falsy). -/
def optTruthy : Option PyVal → Bool
  | none => false
  | some v => pyTruthy v

/-- `len(x)`: defined on sized values, raises `TypeError` on `None`,
numbers and booleans.  The interpreter's exception message text is
abstracted to a fixed string per exception class. -/
def pyLen? : PyVal → Except String Nat
  | .arr xs => .ok xs.length
  | .tup xs => .ok xs.length
  | .obj fields => .ok fields.length
  | .str s => .ok s.length
  | _ => .error "TypeError: object has no len"

/-- `x.get(key, default)`: defined on dicts, raises `AttributeError` on
every other value (including `None`). -/
def pyGetDefault (v : PyVal) (key : String) (dflt : PyVal) :
    Except String PyVal :=
  match v with
  | .obj fields => .ok ((lookupField fields key).getD dflt)
  | _ => .error "AttributeError: object has no attribute get"

/-- Python iteration over a sized value: list/tuple elements, the
characters of a string (as 1-character strings), the keys of a dict;
raises `TypeError` otherwise. -/
def pyIter? : PyVal → Except String (List PyVal)
  | .arr xs => .ok xs
  | .tup xs => .ok xs
  | .str s => .ok (s.toList.map fun c => .str (String.mk [c]))
  | .obj fields => .ok (fields.map fun kv => PyVal.str kv.1)
  | _ => .error "TypeError: object is not iterable"

/-! ## The on-disk output directory (Artifact Store + Progress Log)

`ResultsSaver` writes one JSON file per `(thread_id, step_name)` and the
progress tracker appends JSON lines to one `.jsonl` file per thread.  The
directory is modelled as a single flat map from file name to content, so
that two distinct keys that encode to the same file name genuinely alias,
exactly as on a real file system. -/

/-- Content of one file in the output directory. -/
inductive FileContent where
  | json (v : PyVal)
  | jsonl (lines : List PyVal)

/-- The output directory: file name (as a character list) to content. -/
abbrev Store := List (List Char × FileContent)

/-- Read a file, `none` when absent. -/
def Store.read : Store → List Char → Option FileContent
  | [], _ => none
  | (m, c) :: rest, n => if m = n then some c else Store.read rest n

/-- Write (create or overwrite) a file. -/
def Store.write : Store → List Char → FileContent → Store
  | [], n, c => [(n, c)]
  | (m, d) :: rest, n, c =>
      if m = n then (n, c) :: rest else (m, d) :: Store.write rest n c

/-- File name used by `ResultsSaver.save_step_result` / `get_latest_result`:
`f"{thread_id}_{step_name}.json"`. -/
def artifactFilename (tid step : String) : List Char :=
  tid.toList ++ '_' :: (step.toList ++ ".json".toList)

/-- File name of the per-thread progress log
(`ConversationSession.progress_file`): `f"{thread_id}_progress.jsonl"`. -/
def progressFilename (tid : String) : List Char :=
  tid.toList ++ "_progress.jsonl".toList

/-- The persisted artifact record shape written by `save_step_result`:
`{"step_name": ..., "thread_id": ..., "timestamp": ..., "data": ...}`. -/
def mkStepRecord (step tid ts : String) (data : PyVal) : PyVal :=
  .obj [("step_name", .str step), ("thread_id", .str tid),
        ("timestamp", .str ts), ("data", data)]

/-- `ResultsSaver.save_step_result`: overwrite the fixed file for this
`(thread_id, step_name)` with the wrapped record. -/
def saveStepResult (st : Store) (step : String) (data : PyVal)
    (tid ts : String) : Store :=
  st.write (artifactFilename tid step) (.json (mkStepRecord step tid ts data))

/-- `ResultsSaver.get_latest_result`: read the fixed file, `None` when it
does not exist.  Artifact file names always end in `.json`, so the stored
content there is always a single JSON document; the `.jsonl` branch is
unreachable for these names (see `artifact_ne_progress` below). -/
def getLatestResult (st : Store) (step tid : String) : Option PyVal :=
  match st.read (artifactFilename tid step) with
  | some (.json v) => some v
  | some (.jsonl _) => none
  | none => none

/-- `ResultsSaver.save_interrupt_state`: wrap the snapshot and save it under
step name `f"interrupt_{interrupt_type}"`. -/
def saveInterruptState (st : Store) (itype : String) (istate : PyVal)
    (tid ts : String) : Store :=
  saveStepResult st ("interrupt_" ++ itype)
    (.obj [("interrupt_type", .str itype), ("state", istate),
           ("requires_human_feedback", .bool true)])
    tid ts

/-- Modelled from the spec: the Progress Log writer
(`utils/progress_tracker.py`, whose source is not part of this tree; only
its callers and the reader in `ConversationManager.get_progress` are).
"Progress Log: append-only, per-run event sequence" — each logged event is
appended as one JSON line to the thread's `_progress.jsonl` file. -/
def appendProgress (st : Store) (tid : String) (entry : PyVal) : Store :=
  match st.read (progressFilename tid) with
  | some (.jsonl ls) => st.write (progressFilename tid) (.jsonl (ls ++ [entry]))
  | _ => st.write (progressFilename tid) (.jsonl [entry])

/-! ## Conversation sessions (src/services/conversation_manager.py,
src/services/conversation_models.py, src/services/config.py) -/

/-- `Settings.system_prompt` from src/services/config.py. -/
def systemPrompt : String :=
  "You are the AI Course Builder guide. Ask clarifying questions until " ++
  "you have subject, learner level, duration, module count, quiz plan, " ++
  "and optional constraints. Once requirements look complete, confirm " ++
  "with the user before launching generation."

/-- `CourseConfig` (pydantic model, src/services/conversation_models.py). -/
structure CourseConfig where
  course_subject : String
  learner_level : String
  course_duration : String
  number_of_modules : Int
  graded_quizzes_per_module : Int
  practice_quizzes_per_module : Int
  needs_lab_module : Bool
  custom_prompt : String
deriving DecidableEq

/-- `ConversationMessage` (role, content, metadata; timestamp omitted, see
the module comment). -/
structure ConversationMessage where
  role : String
  content : String
  metadata : List (String × PyVal)

/-- `ConversationSession`.  `workflowFutureDone` models the
`workflow_future` field: `none` when no closure has ever been submitted,
`some b` when one has, with `b` the value of `future.done()`. -/
structure ConversationSession where
  session_id : String
  thread_id : String
  title : String
  status : String
  messages : List ConversationMessage
  workflowFutureDone : Option Bool
  last_error : Option String
  workflow_summary : List (String × PyVal)
  course_config : Option CourseConfig

/-- `ConversationSession.__init__`.  The freshly generated
`str(uuid.uuid4())` is threaded as the explicit argument `uuid`;
`title or "Untitled Course"` falls back on a missing or empty title. -/
def ConversationSession.mkNew (uuid : String) (title : Option String) :
    ConversationSession :=
  { session_id := uuid
    thread_id := String.mk (uuid.toList.take 8)
    title := match title with
      | some t => if t.isEmpty then "Untitled Course" else t
      | none => "Untitled Course"
    status := "awaiting_requirements"
    messages := [⟨"system", systemPrompt, []⟩]
    workflowFutureDone := none
    last_error := none
    workflow_summary := []
    course_config := none }

/-- `ConversationManager.append_message` (the `updated_at` touch is a
wall-clock field, omitted). -/
def appendMessage (s : ConversationSession) (role content : String)
    (metadata : List (String × PyVal)) : ConversationSession :=
  { s with messages := s.messages ++ [⟨role, content, metadata⟩] }

/-- The manager's `sessions` dict: session_id to session. -/
abbrev SessionMap := List (String × ConversationSession)

/-- Dict lookup on the session map (`self.sessions.get(session_id)`). -/
def SessionMap.lookup : SessionMap → String → Option ConversationSession
  | [], _ => none
  | (k, s) :: rest, sid => if k = sid then some s else SessionMap.lookup rest sid

/-- Dict insert/update on the session map. -/
def SessionMap.insert : SessionMap → String → ConversationSession → SessionMap
  | [], sid, s => [(sid, s)]
  | (k, t) :: rest, sid, s =>
      if k = sid then (sid, s) :: rest else (k, t) :: SessionMap.insert rest sid s

/-- `ConversationManager.create_session`: build a fresh session, store it
under its id, return it (the manager returns `to_state()`, a field-for-field
snapshot of the same data). -/
def createSession (m : SessionMap) (uuid : String) (title : Option String) :
    SessionMap × ConversationSession :=
  let session := ConversationSession.mkNew uuid title
  (m.insert session.session_id session, session)

/-- `ConversationManager.get_session`: lookup, `KeyError` when absent
(modelled as `none`). -/
def getSession (m : SessionMap) (sid : String) : Option ConversationSession :=
  m.lookup sid

/-! ## Workflow submission and the background runner -/

/-- Result of `ConversationManager._start_workflow`: either the session
with status `running_workflow` and a submitted (not yet done) future, or
the `RuntimeError` raised when a prior future is still pending. -/
inductive StartResult where
  | started (s : ConversationSession)
  | conflict (msg : String) (s : ConversationSession)

/-- `ConversationManager._start_workflow` (the interaction-log event is an
append-only audit record outside the modelled state). -/
def startWorkflow (s : ConversationSession) (cfg : CourseConfig) : StartResult :=
  match s.workflowFutureDone with
  | some false => .conflict "Workflow already running for this session" s
  | _ => .started { s with
      status := "running_workflow"
      course_config := some cfg
      workflowFutureDone := some false }

/-- Dict insert with overwrite on a summary mapping (Python
`summary[key] = value`). -/
def setKey : List (String × PyVal) → String → PyVal → List (String × PyVal)
  | [], k, v => [(k, v)]
  | (k0, v0) :: rest, k, v =>
      if k0 = k then (k, v) :: rest else (k0, v0) :: setKey rest k v

/-- The generator sum `sum(len(m.get("lessons", [])) for m in modules)`:
raises as soon as some iterated element is not a dict or its `lessons`
value is unsized. -/
def lessonsSum : List PyVal → Except String Nat
  | [] => .ok 0
  | m :: rest => do
      let lv ← pyGetDefault m "lessons" (.arr [])
      let n ← pyLen? lv
      let r ← lessonsSum rest
      .ok (n + r)

/-- One iteration of the loop body of `ConversationManager._build_summary`
over a single node state of the final LangGraph state.  The body raises
(`AttributeError`/`TypeError`) whenever a present `module_structure` key
holds a non-dict value, or a present `quizzes`/`course_content` key holds
an unsized value — e.g. the `None` these keys carry before their agent has
run; the exception aborts the whole summary computation. -/
def buildSummaryStep (summary : List (String × PyVal)) (node_state : PyVal) :
    Except String (List (String × PyVal)) :=
  let state_data? : Option PyVal :=
    match node_state with
    | .obj fs => some (.obj fs)
    | .tup xs => if xs.isEmpty then none else xs.getLast?
    | _ => none
  match state_data? with
  | none => .ok summary
  | some state_data =>
    match state_data with
    | .obj fields => do
      let s1 ← match lookupField fields "module_structure" with
        | none => Except.ok summary
        | some ms => do
          let modulesVal ← pyGetDefault ms "modules" (.arr [])
          let nmod ← pyLen? modulesVal
          let melems ← pyIter? modulesVal
          let nless ← lessonsSum melems
          Except.ok (setKey (setKey summary "modules" (.num nmod))
            "lessons" (.num nless))
      let s2 ← match lookupField fields "quizzes" with
        | none => Except.ok s1
        | some q => do
          let n ← pyLen? q
          Except.ok (setKey s1 "quizzes" (.num n))
      let s3 ← match lookupField fields "course_content" with
        | none => Except.ok s2
        | some cc => do
          let n ← pyLen? cc
          Except.ok (setKey s2 "content_blocks" (.num n))
      match lookupField fields "course_metadata" with
      | some md =>
          if pyTruthy md then .ok (setKey s3 "course_metadata" md) else .ok s3
      | none => .ok s3
    | _ => .ok summary

/-- `ConversationManager._build_summary`: fold the loop body over the node
states of the final state dict; non-dict final states yield `{}`; an
exception in any iteration propagates to the caller (the runner's
`except Exception` arm). -/
def buildSummary (final_state : PyVal) :
    Except String (List (String × PyVal)) :=
  match final_state with
  | .obj fields => fields.foldlM (fun acc kv => buildSummaryStep acc kv.2) []
  | _ => .ok []

/-- Assistant notice appended by the runner on success. -/
def successNotice : String :=
  "✅ Course generation finished. Use the artifacts panel to explore the results."

/-- Assistant notice appended by the runner on failure (`str(exc)` is
interpolated at the end). -/
def failureNoticeHead : String :=
  "⚠️ Something went wrong while generating the course: "

/-- The `_runner` closure submitted by `_start_workflow`, applied once the
worker has finished executing `run_course_builder`.  `outcome` is the
result of that call: `.ok final_state`, or `.error (str(exc))` when any
exception escaped it.  `_build_summary` runs inside the same `try`, so an
exception it raises (see `buildSummaryStep`) lands in the same
`except Exception` arm, with `workflow_summary` left unassigned and the
status never set to completed.  The closure itself never re-raises, so no
failure escapes the worker pool; the session's future is done once it
returns. -/
def runnerStep (s : ConversationSession) (outcome : Except String PyVal) :
    ConversationSession :=
  let s' :=
    match outcome with
    | .ok final_state =>
        match buildSummary final_state with
        | .ok summary =>
            let s1 := { s with
              workflow_summary := summary
              status := "completed" }
            appendMessage s1 "assistant" successNotice
              [("type", .str "workflow_complete")]
        | .error exc =>
            let s1 := { s with status := "error", last_error := some exc }
            appendMessage s1 "assistant" (failureNoticeHead ++ exc)
              [("type", .str "error")]
    | .error exc =>
        let s1 := { s with status := "error", last_error := some exc }
        appendMessage s1 "assistant" (failureNoticeHead ++ exc)
          [("type", .str "error")]
  { s' with workflowFutureDone := some true }

/-! ## Message routing (`ConversationManager.handle_message`) -/

/-- `PostMessageRequest` (src/services/conversation_models.py). -/
structure PostMessageRequest where
  message : String
  action : Option String
  course_config : Option CourseConfig

/-- The metadata dict `{"action": payload.action}` attached to the stored
user message (`action` is `Optional[str]`). -/
def actionMeta (action : Option String) : List (String × PyVal) :=
  [("action", match action with | some a => .str a | none => .null)]

/-- Python `str.lower()` (the embedded strings are ASCII). -/
def strToLower (s : String) : String := String.mk (s.toList.map Char.toLower)

/-- Contiguous-sublist test on character lists. -/
def charsOccurIn (needle : List Char) : List Char → Bool
  | [] => needle.isEmpty
  | c :: rest => needle.isPrefixOf (c :: rest) || charsOccurIn needle rest

/-- Python substring test `needle in hay`. -/
def containsSub (hay needle : String) : Bool :=
  charsOccurIn needle.toList hay.toList

/-- The `required_fields` table of
`ConversationManager._generate_clarifying_prompt`. -/
def requiredFieldQuestions : List (String × String) :=
  [("course_subject", "What subject should the course focus on?"),
   ("learner_level", "Who is the target learner level?"),
   ("course_duration", "How long should the course run?"),
   ("number_of_modules", "How many modules should we plan for?")]

/-- Truthiness of `getattr(session.course_config, field, None)`. -/
def configFieldTruthy (cfg : CourseConfig) (field : String) : Bool :=
  match field with
  | "course_subject" => !cfg.course_subject.isEmpty
  | "learner_level" => !cfg.learner_level.isEmpty
  | "course_duration" => !cfg.course_duration.isEmpty
  | "number_of_modules" => cfg.number_of_modules != 0
  | _ => false

/-- `ConversationManager._course_field_known`: a config field counts as
known when set on the stored config, or when the keyword (the field name
with underscores as spaces) occurs in some earlier user message. -/
def courseFieldKnown (s : ConversationSession) (field : String) : Bool :=
  (match s.course_config with
   | some cfg => configFieldTruthy cfg field
   | none => false) ||
  (let keyword := String.mk (field.toList.map fun c => if c = '_' then ' ' else c)
   s.messages.any fun m => m.role = "user" && containsSub (strToLower m.content) keyword)

/-- `ConversationManager._generate_clarifying_prompt`. -/
def generateClarifyingPrompt (s : ConversationSession)
    (_p : PostMessageRequest) : String :=
  let missing : List String :=
    match s.course_config with
    | some _ => []
    | none => (requiredFieldQuestions.filter
        (fun fq => !courseFieldKnown s fq.1)).map Prod.snd
  if !missing.isEmpty then
    "Thanks! To get started I still need a bit more detail:\n- " ++
    String.intercalate "\n- " missing ++
    "\nYou can also fill out the requirements form in the sidebar and click **Generate Course**."
  else
    "Got it. Let me know when you\x27re ready and I\x27ll kick off the workflow."

/-- Assistant notice appended when a workflow is already running. -/
def waitNotice : String :=
  "⏳ A workflow is already running. Please wait for it to complete."

/-- Assistant notice appended just before launching the workflow. -/
def launchNotice : String :=
  "🚀 Great! Spinning up the course builder pipeline now. I\x27ll keep you updated."

/-- An exception propagating out of `handle_message` /
`_start_workflow`. -/
inductive HErr where
  | valueError (msg : String)
  | runtimeError (msg : String)
deriving DecidableEq

/-- Result of `handle_message` on a session: the session object as left
after the call (Python mutations persist even when an exception is
raised), the exception raised if any, and whether a workflow closure was
submitted to the worker pool. -/
structure HandleResult where
  session : ConversationSession
  raised : Option HErr
  started : Bool

/-- `ConversationManager.handle_message`, given the already-resolved
session (the `KeyError` branch for unknown ids lives in `postMessage`
below). -/
def handleMessage (s : ConversationSession) (p : PostMessageRequest) :
    HandleResult :=
  let s1 := appendMessage s "user" p.message (actionMeta p.action)
  if p.action = some "generate_course" then
    match p.course_config with
    | none =>
        ⟨s1, some (.valueError "course_config is required to generate a course"), false⟩
    | some cfg =>
      if s1.status = "running_workflow" then
        ⟨appendMessage s1 "assistant" waitNotice [], none, false⟩
      else
        let s2 := appendMessage s1 "assistant" launchNotice
          [("type", .str "workflow_launch")]
        match startWorkflow s2 cfg with
        | .conflict msg s3 => ⟨s3, some (.runtimeError msg), false⟩
        | .started s3 => ⟨s3, none, true⟩
  else
    let response := generateClarifyingPrompt s1 p
    ⟨appendMessage s1 "assistant" response [], none, false⟩

/-! ## Progress and artifact reads -/

/-- The value of `get_progress` (shape of `ProgressResponse`). -/
structure ProgressResult where
  steps : List PyVal
  total_steps : Nat
  completed_steps : Nat
  last_step : Option PyVal

/-- The filter predicate of `get_progress`: `s.get("status") == "completed"`
(a non-dict entry has no `status` and never compares equal). -/
def isCompletedEntry (e : PyVal) : Bool :=
  match e.getKey? "status" with
  | some (.str s) => s = "completed"
  | _ => false

/-- `ConversationManager.get_progress`: read the session's progress file
and summarise it; absent file yields the empty result.  A `.json` content
at a progress file name is unreachable (artifact file names never coincide
with progress file names) and is treated as the empty log. -/
def getProgress (st : Store) (s : ConversationSession) : ProgressResult :=
  match st.read (progressFilename s.thread_id) with
  | some (.jsonl entries) =>
      ⟨entries, entries.length, (entries.filter isCompletedEntry).length,
       entries.getLast?⟩
  | _ => ⟨[], 0, 0, none⟩

/-- The fixed key list iterated by `ConversationManager.get_artifacts`. -/
def wellKnownArtifactKeys : List String :=
  ["module_structure", "course_content", "quizzes", "xdp_content", "final_course"]

/-- `ConversationManager.get_artifacts`: for each well-known key, include
the stored record when `get_latest_result` returned a truthy value. -/
def getArtifacts (st : Store) (s : ConversationSession) :
    List (String × PyVal) :=
  wellKnownArtifactKeys.filterMap fun key =>
    match getLatestResult st key s.thread_id with
    | some data => if pyTruthy data then some (key, data) else none
    | none => none

/-! ## API layer (src/services/api.py) -/

/-- An HTTP-level response of `post_message`. -/
inductive ApiResponse where
  | ok (s : ConversationSession)
  | err (status : Nat) (detail : String)

/-- `post_message` endpoint: resolve the session (404 on `KeyError`), run
`handle_message`, map `ValueError` to 400 and `RuntimeError` to 409; the
manager's session map retains the mutated session object in every case. -/
def postMessage (m : SessionMap) (sid : String) (p : PostMessageRequest) :
    ApiResponse × SessionMap :=
  match m.lookup sid with
  | none => (.err 404 ("Session " ++ sid ++ " not found"), m)
  | some s =>
    let r := handleMessage s p
    let m' := m.insert sid r.session
    match r.raised with
    | none => (.ok r.session, m')
    | some (.valueError msg) => (.err 400 msg, m')
    | some (.runtimeError msg) => (.err 409 msg, m')

/-! ## Active-interrupt selection (src/ui/app.py, lines 492-510) -/

/-- The interrupt-priority selection in the Streamlit app: read the three
gate interrupt records and pick the truthy one latest in pipeline order
(quizzes over content over structure). -/
def selectActiveInterrupt (st : Store) (tid : String) :
    Option (PyVal × String) :=
  let interrupt_structure := getLatestResult st "interrupt_structure" tid
  let interrupt_content := getLatestResult st "interrupt_content" tid
  let interrupt_quizzes := getLatestResult st "interrupt_quizzes" tid
  if optTruthy interrupt_quizzes then
    interrupt_quizzes.map fun v => (v, "quizzes")
  else if optTruthy interrupt_content then
    interrupt_content.map fun v => (v, "content")
  else if optTruthy interrupt_structure then
    interrupt_structure.map fun v => (v, "structure")
  else none

/-! ## Pipeline stage functions (src/nodes/question_collector.py,
src/agents/researcher_agent.py, src/agents/xdp_agent.py)

`CourseState` mirrors the TypedDict of src/state/base_state.py.  The
workflow state is a plain dict at runtime, so every input field may be
absent or `None`; both are modelled as `none` (the code treats them
identically: `field not in state or state.get(field) is None`). -/

/-- The `CourseState` TypedDict. -/
structure CourseState where
  course_subject : Option String
  learner_level : Option String
  course_duration : Option String
  number_of_modules : Option Int
  graded_quizzes_per_module : Option Int
  practice_quizzes_per_module : Option Int
  needs_lab_module : Option Bool
  custom_prompt : Option String
  research_findings : Option PyVal
  module_structure : Option PyVal
  xdp_content : Option PyVal
  course_content : Option PyVal
  quizzes : Option PyVal
  validation_results : List (String × PyVal)
  human_feedback : List (String × String)
  approval_status : List (String × Bool)
  course_metadata : List (String × PyVal)
  errors : List String
  current_step : String

/-- The `required_fields` scan of `collect_user_input`: names of the
required input fields that are absent or `None`, in source order. -/
def missingRequired (s : CourseState) : List String :=
  (if s.course_subject.isNone then ["course_subject"] else []) ++
  (if s.learner_level.isNone then ["learner_level"] else []) ++
  (if s.course_duration.isNone then ["course_duration"] else []) ++
  (if s.number_of_modules.isNone then ["number_of_modules"] else []) ++
  (if s.graded_quizzes_per_module.isNone then ["graded_quizzes_per_module"] else []) ++
  (if s.practice_quizzes_per_module.isNone then ["practice_quizzes_per_module"] else []) ++
  (if s.needs_lab_module.isNone then ["needs_lab_module"] else [])

/-- `collect_user_input` (src/nodes/question_collector.py).  When the
missing-field scan is empty, `learner_level` and `number_of_modules` are
present, so the `getD` defaults are never read. -/
def collect_user_input (s : CourseState) : CourseState :=
  let missing := missingRequired s
  if !missing.isEmpty then
    { s with
      current_step := "collecting_user_input"
      errors := s.errors ++
        ["Missing required fields: " ++ String.intercalate ", " missing] }
  else
    let lvl := s.learner_level.getD ""
    if !(lvl = "basic" || lvl = "intermediate" || lvl = "advanced") then
      { s with errors := s.errors ++ ["Invalid learner level: " ++ lvl] }
    else if s.number_of_modules.getD 0 ≤ 0 then
      { s with errors := s.errors ++ ["Number of modules must be greater than 0"] }
    else
      { s with current_step := "user_input_collected" }

/-- `state.get("course_metadata", {}).get("thread_id", "default")` as used
by the agents to pick the artifact namespace. -/
def threadIdOf (s : CourseState) : String :=
  match lookupField s.course_metadata "thread_id" with
  | some (.str t) => t
  | _ => "default"

/-- `researcher_agent` (src/agents/researcher_agent.py).  The LLM
invocation, response-content extraction, JSON extraction and fallback
construction (lines 18-114) are abstracted as `outcome`: `.ok findings`
with the resulting `research_findings` value when no exception escapes
that region, `.error (str(exc))` when one does (the surrounding
`try/except` then appends the error and marks the step failed, returning
the state normally).  `ts` stands for the timestamp written into the saved
artifact record. -/
def researcher_agent (outcome : Except String PyVal) (s : CourseState)
    (st : Store) (ts : String) : CourseState × Store :=
  match outcome with
  | .ok findings =>
      ({ s with
          research_findings := some findings
          current_step := "research_completed" },
       saveStepResult st "research_findings" findings (threadIdOf s) ts)
  | .error exc =>
      ({ s with
          errors := s.errors ++ ["Researcher agent error: " ++ exc]
          current_step := "research_failed" }, st)

/-- `xdp_agent` (src/agents/xdp_agent.py).  The guard mirrors
`if not state.get("module_structure")`; the LLM invocation, JSON parsing,
enrichment and fallback construction (lines 29-169) are abstracted as
`outcome` exactly as for `researcher_agent`. -/
def xdp_agent (outcome : Except String PyVal) (s : CourseState)
    (st : Store) (ts : String) : CourseState × Store :=
  if !optTruthy s.module_structure then
    ({ s with errors := s.errors ++ ["Module structure not available"] }, st)
  else
    match outcome with
    | .ok xdp =>
        ({ s with
            xdp_content := some xdp
            current_step := "xdp_created" },
         saveStepResult st "xdp_content" xdp (threadIdOf s) ts)
    | .error exc =>
        ({ s with
            errors := s.errors ++ ["XDP agent error: " ++ exc]
            current_step := "xdp_failed" }, st)

/-! ## Store lemmas -/

theorem Store.read_write_self (st : Store) (n : List Char) (c : FileContent) :
    (st.write n c).read n = some c := by
  induction st with
  | nil => simp [Store.write, Store.read]
  | cons hd tl ih =>
      obtain ⟨m, d⟩ := hd
      by_cases h : m = n
      · simp [Store.write, Store.read, h]
      · simp [Store.write, Store.read, h, ih]

theorem Store.read_write_ne (st : Store) {n m : List Char} (h : m ≠ n)
    (c : FileContent) : (st.write m c).read n = Store.read st n := by
  induction st with
  | nil => simp [Store.write, Store.read, h]
  | cons hd tl ih =>
      obtain ⟨k, d⟩ := hd
      by_cases hk : k = m
      · subst hk
        simp [Store.write, Store.read, h]
      · simp [Store.write, Store.read, hk, ih]

/-- Artifact file names always end in the character `n` (of `.json`). -/
theorem artifact_getLast (tid step : String) :
    (artifactFilename tid step).getLast? = some 'n' := by
  unfold artifactFilename
  rw [List.getLast?_append_cons]
  rw [show '_' :: (step.toList ++ ".json".toList)
        = ('_' :: step.toList) ++ ".json".toList from rfl]
  rw [List.getLast?_append_of_ne_nil _ (by decide)]
  rfl

/-- Progress file names always end in the character `l` (of `.jsonl`). -/
theorem progress_getLast (tid : String) :
    (progressFilename tid).getLast? = some 'l' := by
  unfold progressFilename
  rw [List.getLast?_append_of_ne_nil _ (by decide)]
  rfl

/-- No artifact file name ever coincides with a progress file name. -/
theorem artifact_ne_progress (tid1 step tid2 : String) :
    artifactFilename tid1 step ≠ progressFilename tid2 := by
  intro h
  have hn := artifact_getLast tid1 step
  rw [h, progress_getLast] at hn
  exact absurd (Option.some.inj hn) (by decide)

theorem takeWhile_no_underscore (r : List Char) (t : List Char)
    (h : '_' ∉ r) :
    (r ++ '_' :: t).takeWhile (fun c => c != '_') = r := by
  induction r with
  | nil => simp [List.takeWhile_cons]
  | cons a r ih =>
      have ha : (a != '_') = true := by
        simp only [bne_iff_ne, ne_eq]
        intro e
        exact h (by simp [e])
      have hr : '_' ∉ r := fun hm => h (List.mem_cons_of_mem a hm)
      simp [List.takeWhile_cons, ha, ih hr]

/-- The file-name encoding is injective in the run identifier as long as
run identifiers contain no underscore (the identifiers the manager
generates are 8 hexadecimal characters of a UUID, so they never do). -/
theorem artifactFilename_inj {r1 s1 r2 s2 : String}
    (h1 : '_' ∉ r1.toList) (h2 : '_' ∉ r2.toList)
    (he : artifactFilename r1 s1 = artifactFilename r2 s2) : r1 = r2 := by
  have e1 := takeWhile_no_underscore r1.toList (s1.toList ++ ".json".toList) h1
  have e2 := takeWhile_no_underscore r2.toList (s2.toList ++ ".json".toList) h2
  unfold artifactFilename at he
  rw [he, e2] at e1
  cases r1
  cases r2
  exact congrArg String.mk (by simpa [String.toList] using e1.symm)

/-- Progress file names are injective in the run identifier. -/
theorem progressFilename_inj {r1 r2 : String}
    (he : progressFilename r1 = progressFilename r2) : r1 = r2 := by
  unfold progressFilename at he
  have := List.append_cancel_right he
  cases r1
  cases r2
  exact congrArg String.mk (by simpa [String.toList] using this)

/-! ## Concrete sample inputs used by witnesses and counterexamples -/

/-- A sample progress-log entry marking a started stage. -/
def sampleEntryStarted : PyVal :=
  .obj [("stage", .str "workflow"), ("status", .str "started")]

/-- A sample progress-log entry marking a completed stage. -/
def sampleEntryCompleted : PyVal :=
  .obj [("stage", .str "researcher_agent"), ("status", .str "completed")]

/-- A store whose progress log for run `abc12345` holds two entries. -/
def sampleProgressStore : Store :=
  appendProgress (appendProgress [] "abc12345" sampleEntryStarted)
    "abc12345" sampleEntryCompleted

/-- A sample validated course configuration. -/
def sampleConfig : CourseConfig :=
  ⟨"Python Programming", "intermediate", "4 weeks", 4, 1, 2, false, ""⟩

/-- A freshly created session (uuid fixed for concreteness). -/
def sampleSession : ConversationSession :=
  ConversationSession.mkNew "abc12345-6789-4000-8000-0123456789ab" none

/-- The sample session while its workflow runs. -/
def sampleRunningSession : ConversationSession :=
  { sampleSession with
      status := "running_workflow"
      workflowFutureDone := some false
      course_config := some sampleConfig }

/-- A generate-course request carrying a configuration. -/
def samplePostGenerate : PostMessageRequest :=
  ⟨"build it", some "generate_course", some sampleConfig⟩

/-! ## Claim theorems -/

/-- C2: for every run_id, step name and payloads d1 then d2, after
`save_step_result(step, d1, run_id)` followed by
`save_step_result(step, d2, run_id)`, `get_latest_result(step, run_id)`
returns the record containing d2 (the later write replaced the earlier
one in the single file for this key); and for any `(run_id, step)` whose
file was never written, `get_latest_result` returns `None`. -/
theorem c2_last_write_wins :
    (∀ (st : Store) (step : String) (d1 d2 : PyVal) (tid ts1 ts2 : String),
      getLatestResult
        (saveStepResult (saveStepResult st step d1 tid ts1) step d2 tid ts2)
        step tid = some (mkStepRecord step tid ts2 d2)) ∧
    (∀ (st : Store) (step tid : String),
      Store.read st (artifactFilename tid step) = none →
      getLatestResult st step tid = none) := by
  constructor
  · intro st step d1 d2 tid ts1 ts2
    unfold getLatestResult saveStepResult
    rw [Store.read_write_self]
  · intro st step tid h
    unfold getLatestResult
    rw [h]

/-- Witness for C2 at concrete inputs. -/
theorem c2_last_write_wins_witness :
    getLatestResult
      (saveStepResult
        (saveStepResult [] "module_structure" (.num 1) "abc12345" "t1")
        "module_structure" (.num 2) "abc12345" "t2")
      "module_structure" "abc12345"
      = some (mkStepRecord "module_structure" "abc12345" "t2" (.num 2)) ∧
    getLatestResult ([] : Store) "quizzes" "abc12345" = none :=
  ⟨c2_last_write_wins.1 [] "module_structure" (.num 1) (.num 2)
      "abc12345" "t1" "t2",
   c2_last_write_wins.2 [] "quizzes" "abc12345" rfl⟩

/-- C9 counterexample: run identifiers are embedded into file names by
underscore concatenation (`f"{thread_id}_{step_name}.json"`), which is not
injective over arbitrary identifiers.  With the distinct run identifiers
`"a_b"` and `"a"`, saving step `"c"` under `"a_b"` makes
`get_latest_result("b_c", "a")` change from `None` to the record written
under the other run. -/
theorem c9_counterexample :
    ("a_b" : String) ≠ "a" ∧
    getLatestResult ([] : Store) "b_c" "a" = none ∧
    getLatestResult (saveStepResult [] "c" PyVal.null "a_b" "t0") "b_c" "a"
      = some (mkStepRecord "c" "a_b" "t0" PyVal.null) :=
  ⟨by decide, rfl, rfl⟩

/-- C9 (amended): for two distinct run identifiers neither of which
contains an underscore (the manager's generated identifiers are 8 UUID
hex characters, so they never do), saving any artifact or appending any
progress entry under r1 leaves every retrievable artifact of r2 and r2's
progress log unchanged. -/
theorem c9_run_isolation (r1 r2 : String)
    (h1 : '_' ∉ r1.toList) (h2 : '_' ∉ r2.toList) (hne : r1 ≠ r2) :
    (∀ (st : Store) (stepw : String) (d : PyVal) (ts stepr : String),
      getLatestResult (saveStepResult st stepw d r1 ts) stepr r2
        = getLatestResult st stepr r2) ∧
    (∀ (st : Store) (stepw : String) (d : PyVal) (ts : String)
       (s : ConversationSession), s.thread_id = r2 →
      getProgress (saveStepResult st stepw d r1 ts) s = getProgress st s) ∧
    (∀ (st : Store) (e : PyVal) (stepr : String),
      getLatestResult (appendProgress st r1 e) stepr r2
        = getLatestResult st stepr r2) ∧
    (∀ (st : Store) (e : PyVal) (s : ConversationSession), s.thread_id = r2 →
      getProgress (appendProgress st r1 e) s = getProgress st s) := by
  have hart : ∀ stepw stepr : String,
      artifactFilename r1 stepw ≠ artifactFilename r2 stepr := by
    intro stepw stepr he
    exact hne (artifactFilename_inj h1 h2 he)
  have hprog : progressFilename r1 ≠ progressFilename r2 := by
    intro he
    exact hne (progressFilename_inj he)
  refine ⟨?_, ?_, ?_, ?_⟩
  · intro st stepw d ts stepr
    unfold getLatestResult saveStepResult
    rw [Store.read_write_ne st (hart stepw stepr) _]
  · intro st stepw d ts s hs
    unfold getProgress saveStepResult
    rw [hs, Store.read_write_ne st (artifact_ne_progress r1 stepw r2) _]
  · intro st e stepr
    unfold getLatestResult appendProgress
    have hne2 : progressFilename r1 ≠ artifactFilename r2 stepr :=
      fun he => artifact_ne_progress r2 stepr r1 he.symm
    cases h : Store.read st (progressFilename r1) with
    | none => rw [Store.read_write_ne st hne2 _]
    | some c =>
        cases c with
        | json v => rw [Store.read_write_ne st hne2 _]
        | jsonl ls => rw [Store.read_write_ne st hne2 _]
  · intro st e s hs
    unfold getProgress appendProgress
    rw [hs]
    have hne2 : progressFilename r1 ≠ progressFilename r2 := hprog
    cases h : Store.read st (progressFilename r1) with
    | none => rw [Store.read_write_ne st hne2 _]
    | some c =>
        cases c with
        | json v => rw [Store.read_write_ne st hne2 _]
        | jsonl ls => rw [Store.read_write_ne st hne2 _]

/-- Witness for C9 (amended) at concrete run identifiers. -/
theorem c9_run_isolation_witness :
    getLatestResult
      (saveStepResult [] "quizzes" (.num 7) "abc12345" "t1")
      "quizzes" "def67890"
      = getLatestResult ([] : Store) "quizzes" "def67890" :=
  (c9_run_isolation "abc12345" "def67890" (by decide) (by decide)
    (by decide)).1 [] "quizzes" (.num 7) "t1" "quizzes"

/-- C4: `get_progress` returns the progress-log entries in file order,
`total_steps` equal to the number of entries, `completed_steps` equal to
the number of entries whose status is "completed", `last_step` the final
entry; with no progress file everything is empty/zero/`None`.  The read is
pure: `getProgress` consumes the store and the session and returns only a
`ProgressResult`, so neither can change. -/
theorem c4_get_progress (st : Store) (s : ConversationSession) :
    (getProgress st s).total_steps = (getProgress st s).steps.length ∧
    (getProgress st s).completed_steps
      = (getProgress st s).steps.countP isCompletedEntry ∧
    (getProgress st s).last_step = (getProgress st s).steps.getLast? ∧
    (Store.read st (progressFilename s.thread_id) = none →
      getProgress st s = ⟨[], 0, 0, none⟩) ∧
    (∀ entries,
      Store.read st (progressFilename s.thread_id) = some (.jsonl entries) →
      (getProgress st s).steps = entries) := by
  cases h : Store.read st (progressFilename s.thread_id) with
  | none => simp [getProgress, h]
  | some c =>
      cases c with
      | json v => simp [getProgress, h]
      | jsonl entries =>
          simp [getProgress, h, List.countP_eq_length_filter]

/-- Witness for C4 at a concrete two-entry progress log. -/
theorem c4_get_progress_witness :
    (getProgress sampleProgressStore sampleSession).steps
      = [sampleEntryStarted, sampleEntryCompleted] ∧
    getProgress ([] : Store) sampleSession = ⟨[], 0, 0, none⟩ :=
  ⟨(c4_get_progress sampleProgressStore sampleSession).2.2.2.2
      [sampleEntryStarted, sampleEntryCompleted] rfl,
   (c4_get_progress ([] : Store) sampleSession).2.2.2.1 rfl⟩

/-- C1 counterexample: with the session already in `running_workflow`,
`handle_message` with action `generate_course` and a `course_config` does
not raise at all — it returns normally, appends the user message plus an
assistant wait notice, and starts nothing.  The claim's "raises a conflict
error" and "no new messages" are both false on the code. -/
theorem c1_counterexample :
    (handleMessage sampleRunningSession samplePostGenerate).raised = none ∧
    (handleMessage sampleRunningSession samplePostGenerate).started = false ∧
    (handleMessage sampleRunningSession samplePostGenerate).session.messages.length
      = sampleRunningSession.messages.length + 2 :=
  ⟨rfl, rfl, rfl⟩

/-- C1 (amended): for every session whose status is `running_workflow`,
posting a message with action `generate_course` and a `course_config`
raises nothing; it starts no second worker, leaves the status, the
workflow future and `last_error` unchanged, and appends exactly two
messages: the stored user message and the assistant wait notice. -/
theorem c1_running_no_second_worker (s : ConversationSession)
    (p : PostMessageRequest) (cfg : CourseConfig)
    (hst : s.status = "running_workflow")
    (ha : p.action = some "generate_course")
    (hc : p.course_config = some cfg) :
    (handleMessage s p).raised = none ∧
    (handleMessage s p).started = false ∧
    (handleMessage s p).session.status = s.status ∧
    (handleMessage s p).session.messages
      = s.messages ++ [⟨"user", p.message, actionMeta p.action⟩,
                       ⟨"assistant", waitNotice, []⟩] ∧
    (handleMessage s p).session.workflowFutureDone = s.workflowFutureDone ∧
    (handleMessage s p).session.last_error = s.last_error := by
  have hmsg : handleMessage s p
      = ⟨appendMessage (appendMessage s "user" p.message (actionMeta p.action))
           "assistant" waitNotice [], none, false⟩ := by
    simp [handleMessage, ha, hc, appendMessage, hst]
  rw [hmsg]
  simp [appendMessage]

/-- Witness for C1 (amended) at a concrete running session. -/
theorem c1_running_no_second_worker_witness :
    sampleRunningSession.status = "running_workflow" ∧
    (handleMessage sampleRunningSession samplePostGenerate).raised = none ∧
    (handleMessage sampleRunningSession samplePostGenerate).started = false :=
  ⟨rfl,
   (c1_running_no_second_worker sampleRunningSession samplePostGenerate
      sampleConfig rfl rfl rfl).1,
   (c1_running_no_second_worker sampleRunningSession samplePostGenerate
      sampleConfig rfl rfl rfl).2.1⟩

/-- C3 counterexample: `last_error` is set to `str(exc)`, which is the
empty string for an exception with an empty message, so "a non-empty
last_error" fails; everything else about the failure path holds. -/
theorem c3_counterexample :
    (runnerStep sampleRunningSession (Except.error "")).status = "error" ∧
    (runnerStep sampleRunningSession (Except.error "")).last_error = some "" ∧
    ("" : String).length = 0 :=
  ⟨rfl, rfl, rfl⟩

/-- C3 (amended): the runner closure is total — any failure inside its
`try` is consumed by the `except Exception` arm, so nothing escapes the
worker pool — and: on a normal pipeline return whose summary computation
also succeeds, the session ends `completed` with that summary and exactly
one assistant completion notice appended; when the summary computation
over the returned final state raises (present `module_structure` /
`quizzes` / `course_content` keys with `None` or otherwise unusable
values), or when an exception escapes the pipeline call itself, the
session ends `error` with `last_error` set to the exception's message
(possibly the empty string) and exactly one assistant failure notice
appended. -/
theorem c3_runner_outcome (s : ConversationSession)
    (outcome : Except String PyVal) :
    (∀ fs summary, outcome = .ok fs → buildSummary fs = .ok summary →
      (runnerStep s outcome).status = "completed" ∧
      (runnerStep s outcome).workflow_summary = summary ∧
      (runnerStep s outcome).messages
        = s.messages ++ [⟨"assistant", successNotice,
            [("type", .str "workflow_complete")]⟩]) ∧
    (∀ fs e, outcome = .ok fs → buildSummary fs = .error e →
      (runnerStep s outcome).status = "error" ∧
      (runnerStep s outcome).last_error = some e ∧
      (runnerStep s outcome).messages
        = s.messages ++ [⟨"assistant", failureNoticeHead ++ e,
            [("type", .str "error")]⟩]) ∧
    (∀ e, outcome = .error e →
      (runnerStep s outcome).status = "error" ∧
      (runnerStep s outcome).last_error = some e ∧
      (runnerStep s outcome).messages
        = s.messages ++ [⟨"assistant", failureNoticeHead ++ e,
            [("type", .str "error")]⟩]) := by
  refine ⟨?_, ?_, ?_⟩
  · intro fs summary h hsum
    subst h
    refine ⟨?_, ?_, ?_⟩ <;> simp [runnerStep, hsum, appendMessage]
  · intro fs e h hsum
    subst h
    refine ⟨?_, ?_, ?_⟩ <;> simp [runnerStep, hsum, appendMessage]
  · intro e h
    subst h
    refine ⟨rfl, rfl, ?_⟩
    simp [runnerStep, appendMessage]

/-- A final state whose only node carries `quizzes = None`: present key,
unsized value, so `_build_summary` raises `len(None)`. -/
def sampleRaisingFinalState : PyVal :=
  .obj [("quiz_curator", .obj [("quizzes", .null)])]

/-- Witness for C3 (amended) on all three branches at concrete inputs:
a clean completion, a final state whose summary computation raises, and
an exception escaping the pipeline call. -/
theorem c3_runner_outcome_witness :
    (runnerStep sampleRunningSession (Except.ok (PyVal.obj []))).status
      = "completed" ∧
    (runnerStep sampleRunningSession (Except.ok sampleRaisingFinalState)).status
      = "error" ∧
    (runnerStep sampleRunningSession (Except.ok sampleRaisingFinalState)).last_error
      = some "TypeError: object has no len" ∧
    (runnerStep sampleRunningSession (Except.error "boom")).status = "error" ∧
    (runnerStep sampleRunningSession (Except.error "boom")).last_error
      = some "boom" :=
  ⟨((c3_runner_outcome sampleRunningSession (Except.ok (PyVal.obj []))).1
      (PyVal.obj []) [] rfl rfl).1,
   ((c3_runner_outcome sampleRunningSession
      (Except.ok sampleRaisingFinalState)).2.1
      sampleRaisingFinalState "TypeError: object has no len" rfl rfl).1,
   ((c3_runner_outcome sampleRunningSession
      (Except.ok sampleRaisingFinalState)).2.1
      sampleRaisingFinalState "TypeError: object has no len" rfl rfl).2.1,
   ((c3_runner_outcome sampleRunningSession (Except.error "boom")).2.2
      "boom" rfl).1,
   ((c3_runner_outcome sampleRunningSession (Except.error "boom")).2.2
      "boom" rfl).2.1⟩

/-- A store for a run paused at the structure gate: only the interrupt
record has been saved. -/
def pausedStore : Store :=
  saveInterruptState [] "structure"
    (.obj [("module_structure", .obj [("modules", .arr [])])]) "abc12345" "t0"

/-- C5 counterexample: with the run paused at the structure gate (its
interrupt record saved, nothing else), the interrupt record is retrievable
under its key, yet `get_artifacts` returns an empty mapping — it only
queries the five stage-output keys and never any `interrupt_*` key, so the
mapping does not contain the interrupt record for the gate. -/
theorem c5_counterexample :
    getLatestResult pausedStore "interrupt_structure" "abc12345"
      = some (mkStepRecord "interrupt_structure" "abc12345" "t0"
          (.obj [("interrupt_type", .str "structure"),
                 ("state", .obj [("module_structure",
                    .obj [("modules", .arr [])])]),
                 ("requires_human_feedback", .bool true)])) ∧
    getArtifacts pausedStore sampleSession = [] :=
  ⟨rfl, rfl⟩

/-- C5 (amended): the mapping returned by `get_artifacts` holds exactly
the keys among the five well-known stage-output keys (`module_structure`,
`course_content`, `quizzes`, `xdp_content`, `final_course`) whose artifact
exists (with truthy content) for the session's run_id; in particular a
stage after a paused gate, having no output artifact, contributes no key —
but interrupt records are never part of this mapping. -/
theorem c5_artifact_mapping (st : Store) (s : ConversationSession) :
    (∀ k v, (k, v) ∈ getArtifacts st s →
      k ∈ wellKnownArtifactKeys ∧
      getLatestResult st k s.thread_id = some v ∧ pyTruthy v = true) ∧
    (∀ k v, k ∈ wellKnownArtifactKeys →
      getLatestResult st k s.thread_id = some v → pyTruthy v = true →
      (k, v) ∈ getArtifacts st s) := by
  constructor
  · intro k v hm
    rw [getArtifacts, List.mem_filterMap] at hm
    obtain ⟨a, ha, hfa⟩ := hm
    cases h : getLatestResult st a s.thread_id with
    | none => simp [h] at hfa
    | some data =>
        simp only [h] at hfa
        by_cases ht : pyTruthy data = true
        · simp only [ht, if_true] at hfa
          rw [Option.some.injEq, Prod.mk.injEq] at hfa
          obtain ⟨hk, hv⟩ := hfa
          subst hk
          subst hv
          exact ⟨ha, h, ht⟩
        · simp [ht] at hfa
  · intro k v hk hlat ht
    rw [getArtifacts, List.mem_filterMap]
    refine ⟨k, hk, ?_⟩
    simp [hlat, ht]

/-- Witness for C5 (amended): a saved `quizzes` artifact appears in the
mapping. -/
theorem c5_artifact_mapping_witness :
    ("quizzes", mkStepRecord "quizzes" "abc12345" "t1" (.num 3)) ∈
      getArtifacts (saveStepResult [] "quizzes" (.num 3) "abc12345" "t1")
        sampleSession :=
  (c5_artifact_mapping (saveStepResult [] "quizzes" (.num 3) "abc12345" "t1")
      sampleSession).2
    "quizzes" (mkStepRecord "quizzes" "abc12345" "t1" (.num 3))
    (by simp [wellKnownArtifactKeys]) rfl rfl

/-- C6: each embedded stage function only ever appends to the `errors`
list (the input list is an initial segment of the output list), and the
branches that do append an error still return the updated context normally
— the stage is total and never halts the run by raising. -/
theorem c6_errors_append_only :
    (∀ s : CourseState,
      ∃ t, (collect_user_input s).errors = s.errors ++ t) ∧
    (∀ (o : Except String PyVal) (s : CourseState) (st : Store) (ts : String),
      ∃ t, (researcher_agent o s st ts).1.errors = s.errors ++ t) ∧
    (∀ (o : Except String PyVal) (s : CourseState) (st : Store) (ts : String),
      ∃ t, (xdp_agent o s st ts).1.errors = s.errors ++ t) ∧
    (∀ (e : String) (s : CourseState) (st : Store) (ts : String),
      (researcher_agent (.error e) s st ts).1.errors
        = s.errors ++ ["Researcher agent error: " ++ e] ∧
      (researcher_agent (.error e) s st ts).1.current_step
        = "research_failed") := by
  refine ⟨?_, ?_, ?_, ?_⟩
  · intro s
    simp only [collect_user_input]
    split
    · exact ⟨_, rfl⟩
    · split
      · exact ⟨_, rfl⟩
      · split
        · exact ⟨_, rfl⟩
        · exact ⟨[], (List.append_nil s.errors).symm⟩
  · intro o s st ts
    cases o with
    | ok v => exact ⟨[], by simp [researcher_agent]⟩
    | error e => exact ⟨_, rfl⟩
  · intro o s st ts
    unfold xdp_agent
    split_ifs with h
    · exact ⟨_, rfl⟩
    · cases o with
      | ok v => exact ⟨[], by simp⟩
      | error e => exact ⟨_, rfl⟩
  · intro e s st ts
    exact ⟨rfl, rfl⟩

/-- A store holding interrupt records for all three gates at once. -/
def allInterruptsStore : Store :=
  saveInterruptState
    (saveInterruptState
      (saveInterruptState [] "structure" (.obj [("a", .num 1)]) "abc12345" "t1")
      "content" (.obj [("b", .num 2)]) "abc12345" "t2")
    "quizzes" (.obj [("c", .num 3)]) "abc12345" "t3"

/-- C7: the active-gate derivation in the UI picks the interrupt whose
gate is latest in pipeline position: a truthy quizzes interrupt wins over
everything, a truthy content interrupt wins whenever the quizzes one is
absent/falsy, and the structure interrupt is chosen only when the other
two are absent/falsy. -/
theorem c7_latest_gate_wins (st : Store) (tid : String) :
    (optTruthy (getLatestResult st "interrupt_quizzes" tid) = true →
      selectActiveInterrupt st tid
        = (getLatestResult st "interrupt_quizzes" tid).map
            fun v => (v, "quizzes")) ∧
    (optTruthy (getLatestResult st "interrupt_quizzes" tid) = false →
     optTruthy (getLatestResult st "interrupt_content" tid) = true →
      selectActiveInterrupt st tid
        = (getLatestResult st "interrupt_content" tid).map
            fun v => (v, "content")) ∧
    (optTruthy (getLatestResult st "interrupt_quizzes" tid) = false →
     optTruthy (getLatestResult st "interrupt_content" tid) = false →
     optTruthy (getLatestResult st "interrupt_structure" tid) = true →
      selectActiveInterrupt st tid
        = (getLatestResult st "interrupt_structure" tid).map
            fun v => (v, "structure")) := by
  refine ⟨?_, ?_, ?_⟩
  · intro hq
    simp [selectActiveInterrupt, hq]
  · intro hq hc
    simp [selectActiveInterrupt, hq, hc]
  · intro hq hc hs
    simp [selectActiveInterrupt, hq, hc, hs]

/-- Witness for C7: with all three interrupts present at once, the quizzes
interrupt is selected. -/
theorem c7_latest_gate_wins_witness :
    optTruthy (getLatestResult allInterruptsStore "interrupt_quizzes"
      "abc12345") = true ∧
    selectActiveInterrupt allInterruptsStore "abc12345"
      = (getLatestResult allInterruptsStore "interrupt_quizzes" "abc12345").map
          (fun v => (v, "quizzes")) :=
  ⟨rfl, (c7_latest_gate_wins allInterruptsStore "abc12345").1 rfl⟩

/-- C8: posting a message with action `generate_course` but no
`course_config` raises the `ValueError` synchronously (no workflow closure
is submitted), and the API layer maps it to an HTTP 400. -/
theorem c8_generate_requires_config (m : SessionMap) (sid : String)
    (s : ConversationSession) (p : PostMessageRequest)
    (hs : m.lookup sid = some s)
    (ha : p.action = some "generate_course")
    (hc : p.course_config = none) :
    (handleMessage s p).raised
      = some (.valueError "course_config is required to generate a course") ∧
    (handleMessage s p).started = false ∧
    (postMessage m sid p).1
      = .err 400 "course_config is required to generate a course" := by
  have h1 : handleMessage s p
      = ⟨appendMessage s "user" p.message (actionMeta p.action),
         some (.valueError "course_config is required to generate a course"),
         false⟩ := by
    simp [handleMessage, ha, hc]
  refine ⟨by rw [h1], by rw [h1], ?_⟩
  simp [postMessage, hs, h1]

/-- Witness for C8 at a concrete session and request. -/
theorem c8_generate_requires_config_witness :
    (handleMessage sampleSession ⟨"go", some "generate_course", none⟩).raised
      = some (.valueError "course_config is required to generate a course") ∧
    (postMessage [(sampleSession.session_id, sampleSession)]
        sampleSession.session_id ⟨"go", some "generate_course", none⟩).1
      = .err 400 "course_config is required to generate a course" :=
  ⟨(c8_generate_requires_config [(sampleSession.session_id, sampleSession)]
      sampleSession.session_id sampleSession _ rfl rfl rfl).1,
   (c8_generate_requires_config [(sampleSession.session_id, sampleSession)]
      sampleSession.session_id sampleSession _ rfl rfl rfl).2.2⟩

theorem SessionMap.lookup_insert_self (m : SessionMap) (sid : String)
    (s : ConversationSession) : (m.insert sid s).lookup sid = some s := by
  induction m with
  | nil => simp [SessionMap.insert, SessionMap.lookup]
  | cons hd tl ih =>
      obtain ⟨k, t⟩ := hd
      by_cases h : k = sid
      · simp [SessionMap.insert, SessionMap.lookup, h]
      · simp [SessionMap.insert, SessionMap.lookup, h, ih]

/-- C10: a freshly created session has its run identifier equal to the
first 8 characters of its session id, exactly one (system) message, no
recorded error, an empty workflow summary, and is immediately retrievable
from the manager under its session id. -/
theorem c10_create_session (m : SessionMap) (uuid : String)
    (title : Option String) :
    (createSession m uuid title).2.thread_id
      = String.mk ((createSession m uuid title).2.session_id.toList.take 8) ∧
    (createSession m uuid title).2.messages.countP
      (fun msg => msg.role = "system") = 1 ∧
    (createSession m uuid title).2.messages.length = 1 ∧
    (createSession m uuid title).2.last_error = none ∧
    (createSession m uuid title).2.workflow_summary = [] ∧
    getSession (createSession m uuid title).1
        (createSession m uuid title).2.session_id
      = some (createSession m uuid title).2 := by
  refine ⟨rfl, ?_, rfl, rfl, rfl, ?_⟩
  · simp [createSession, ConversationSession.mkNew, List.countP_cons]
  · exact SessionMap.lookup_insert_self m _ _

end CourseCreation
